import Mathlib

/-! Shallow embedding of the role-gated PostgreSQL gateway: privilege
classification, the permission gate, the checkpoint session state
machine, and query execution, with proofs of the documented
properties. Database interaction is modelled by an oracle that maps
each SQL statement to a success result or an error message, and every
call returns the list of database events (connection acquisitions,
statements sent, releases) it performed. -/

namespace PgGateway

/-- Characters matched by the whitespace class of the JavaScript regex
used in the classifier's split. -/
def jsIsSpace (c : Char) : Bool :=
  c = ' ' || c = '\t' || c = '\n' || c = '\r' ||
  c.toNat = 0x0B || c.toNat = 0x0C || c.toNat = 0xA0 || c.toNat = 0x1680 ||
  (0x2000 ≤ c.toNat && c.toNat ≤ 0x200A) ||
  c.toNat = 0x2028 || c.toNat = 0x2029 || c.toNat = 0x202F ||
  c.toNat = 0x205F || c.toNat = 0x3000 || c.toNat = 0xFEFF

/-- A delimiter of the classifier's split: whitespace or semicolon. -/
def isDelim (c : Char) : Bool := jsIsSpace c || c = ';'

/-- JavaScript trim: strip leading and trailing whitespace. -/
def jsTrimList (l : List Char) : List Char :=
  ((l.dropWhile jsIsSpace).reverse.dropWhile jsIsSpace).reverse

/-- JavaScript String.split on a one-character-class regex: every
delimiter occurrence cuts the string, and empty fields are kept, so
the result is always non-empty. -/
def splitFields : List Char → List (List Char)
  | [] => [[]]
  | c :: cs =>
    if isDelim c then [] :: splitFields cs
    else
      match splitFields cs with
      | [] => [[c]]
      | f :: fs => (c :: f) :: fs

/-- The leading command token of a SQL text, as the source computes it:
trim, upper-case, split on whitespace or semicolon, take field zero. -/
def commandOf (sql : String) : String :=
  String.mk ((splitFields ((jsTrimList sql.toList).map Char.toUpper)).headD [])

/-- Commands whose required privilege is remapped to SELECT. -/
def readCommands : List String := ["SELECT", "WITH", "SHOW", "EXPLAIN"]

/-- The privilege required to run a SQL text: the leading command,
remapped through the two special cases of the source. -/
def requiredPrivilegeOf (sql : String) : String :=
  let command := commandOf sql
  if readCommands.contains command then "SELECT"
  else if command = "RENAME" then "ALTER"
  else command

/-- The configured permission roles. -/
inductive Role
  | read
  | insert
  | write
  | admin
deriving DecidableEq

/-- The static table mapping each role to its granted privileges. -/
def databaseRoles : Role → List String
  | Role.read => ["SELECT"]
  | Role.insert => ["SELECT", "INSERT"]
  | Role.write => ["SELECT", "INSERT", "UPDATE", "DELETE"]
  | Role.admin =>
    ["SELECT", "INSERT", "UPDATE", "DELETE", "TRUNCATE", "CREATE", "ALTER", "DROP"]

/-- Structured errors thrown by the tool handlers. -/
inductive QError
  | permissionDenied (command requiredPrivilege : String) (granted : List String)
  | noActiveSession
  | checkpointIdRequired
  | checkpointNotFound (id : Int)
  | dbError (message : String)
deriving DecidableEq

/-- The permission gate: throws permissionDenied when the required
privilege is absent from the granted set, otherwise passes. -/
def checkPermissions (sql : String) (grantedPrivileges : List String) :
    Except QError Unit :=
  if grantedPrivileges.contains (requiredPrivilegeOf sql) then Except.ok ()
  else
    Except.error
      (QError.permissionDenied (commandOf sql) (requiredPrivilegeOf sql)
        grantedPrivileges)

/-- Commands classified as writes for checkpoint creation. -/
def writeCommands : List String :=
  ["INSERT", "UPDATE", "DELETE", "TRUNCATE", "CREATE", "ALTER", "DROP", "RENAME"]

/-- Result of one successful database statement. -/
structure QueryRes where
  rows : List String
  rowCount : Option Nat
deriving DecidableEq

/-- The database oracle: each statement either succeeds with a result
or fails with an error message. -/
def Db : Type := String → Except String QueryRes

/-- Observable database events, in order. -/
inductive DbEvent
  | connect (conn : Nat)
  | stmt (conn : Nat) (sql : String)
  | release (conn : Nat)
  | warn
deriving DecidableEq

/-- One checkpoint: id, the write statement, creation timestamp. -/
structure Checkpoint where
  id : Int
  query : String
  timestamp : String
deriving DecidableEq

/-- The mutable module state of the checkpoint session. -/
structure SessionState where
  checkpointMode : Bool
  sessionClient : Option Nat
  checkpointHistory : List Checkpoint
  checkpointCounter : Int
deriving DecidableEq

/-- The state at module initialization: Idle, no client, empty
history, counter zero. -/
def initialState : SessionState :=
  { checkpointMode := false
    sessionClient := none
    checkpointHistory := []
    checkpointCounter := 0 }

/-- Successful responses of the query tool: serialized rows when any
row came back, otherwise the command keyword with the affected count. -/
inductive QOut
  | rowsOut (rows : List String)
  | cmdOk (command : String) (count : Nat)
deriving DecidableEq

/-- Formats a query result as the source does: rows when non-empty,
otherwise the command with rowCount defaulted to zero. -/
def responseOf (command : String) (res : QueryRes) : QOut :=
  if res.rows.length > 0 then QOut.rowsOut res.rows
  else QOut.cmdOk command (res.rowCount.getD 0)

/-- The savepoint name attached to a checkpoint id. -/
def savepointName (id : Int) : String := "checkpoint_" ++ toString id

/-- The catch branch of the Idle execution path: attempt ROLLBACK
(with a warning when the rollback itself fails), then re-raise the
original error unchanged. -/
def idleCatch (db : Db) (c : Nat) (pre : List DbEvent) (e : String) :
    Except QError QOut × List DbEvent :=
  match db "ROLLBACK" with
  | Except.error _ =>
    (Except.error (QError.dbError e), pre ++ [DbEvent.stmt c "ROLLBACK", DbEvent.warn])
  | Except.ok _ =>
    (Except.error (QError.dbError e), pre ++ [DbEvent.stmt c "ROLLBACK"])

/-- The try block of Idle-mode execution: BEGIN (read-only when the
configured role is read), run the statement, COMMIT; on any failure
roll back and re-raise the original error. -/
def idleTry (role : Role) (db : Db) (c : Nat) (sql command : String) :
    Except QError QOut × List DbEvent :=
  let beginStmt :=
    if role = Role.read then "BEGIN TRANSACTION READ ONLY" else "BEGIN"
  let pre := [DbEvent.connect c, DbEvent.stmt c beginStmt]
  match db beginStmt with
  | Except.error e => idleCatch db c pre e
  | Except.ok _ =>
    match db sql with
    | Except.error e => idleCatch db c (pre ++ [DbEvent.stmt c sql]) e
    | Except.ok res =>
      match db "COMMIT" with
      | Except.error e =>
        idleCatch db c (pre ++ [DbEvent.stmt c sql, DbEvent.stmt c "COMMIT"]) e
      | Except.ok _ =>
        (Except.ok (responseOf command res),
         pre ++ [DbEvent.stmt c sql, DbEvent.stmt c "COMMIT"])

/-- Idle-mode execution: acquire a pooled connection, run the try
block above, and in the finally block release the connection, on
every exit path. -/
def idleExec (role : Role) (db : Db) (c : Nat) (sql command : String) :
    Except QError QOut × List DbEvent :=
  let r := idleTry role db c sql command
  (r.1, r.2 ++ [DbEvent.release c])

/-- The query tool handler: gate on permissions first; in checkpoint
mode run on the session client and auto-checkpoint writes; otherwise
run auto-committed on a fresh pooled connection. -/
def executeQuery (role : Role) (db : Db) (freshConn : Nat) (now : String)
    (st : SessionState) (sql : String) :
    Except QError QOut × SessionState × List DbEvent :=
  match checkPermissions sql (databaseRoles role) with
  | Except.error e => (Except.error e, st, [])
  | Except.ok _ =>
    let command := commandOf sql
    let isWrite := writeCommands.contains command
    match st.checkpointMode, st.sessionClient with
    | true, some c =>
      match db sql with
      | Except.error e =>
        (Except.error (QError.dbError e), st, [DbEvent.stmt c sql])
      | Except.ok res =>
        if isWrite then
          let cid := st.checkpointCounter + 1
          let sp := "SAVEPOINT " ++ savepointName cid
          match db sp with
          | Except.error e =>
            (Except.error (QError.dbError e),
             { st with checkpointCounter := cid },
             [DbEvent.stmt c sql, DbEvent.stmt c sp])
          | Except.ok _ =>
            (Except.ok (responseOf command res),
             { st with
                checkpointCounter := cid
                checkpointHistory :=
                  st.checkpointHistory ++ [⟨cid, sql, now⟩] },
             [DbEvent.stmt c sql, DbEvent.stmt c sp])
        else
          (Except.ok (responseOf command res), st, [DbEvent.stmt c sql])
    | _, _ =>
      let r := idleExec role db freshConn sql command
      (r.1, st, r.2)

/-- Actions of the checkpoint tool. -/
inductive CpAction
  | start
  | list
  | rollback
  | commit
  | discard
deriving DecidableEq

/-- Successful responses of the checkpoint tool, structurally. -/
inductive CpOut
  | alreadyActive
  | started
  | noSession
  | noCheckpoints
  | listing (cps : List Checkpoint)
  | rolledBack (id : Int) (query : String)
  | committed (count : Nat)
  | discarded (count : Nat)
deriving DecidableEq

/-- JavaScript falsiness of the optional checkpointId argument:
absent, or present and equal to zero. -/
def isFalsyId : Option Int → Bool
  | none => true
  | some k => k = 0

/-- The checkpoint tool handler, mirroring the source branch by
branch; database statements that throw propagate before any state
mutation that textually follows them. -/
def checkpointTool (db : Db) (freshConn : Nat) (st : SessionState)
    (action : CpAction) (checkpointId : Option Int) :
    Except QError CpOut × SessionState × List DbEvent :=
  match action with
  | CpAction.start =>
    if st.checkpointMode then (Except.ok CpOut.alreadyActive, st, [])
    else
      match db "BEGIN" with
      | Except.error e =>
        (Except.error (QError.dbError e),
         { st with sessionClient := some freshConn },
         [DbEvent.connect freshConn, DbEvent.stmt freshConn "BEGIN"])
      | Except.ok _ =>
        (Except.ok CpOut.started,
         { checkpointMode := true
           sessionClient := some freshConn
           checkpointHistory := []
           checkpointCounter := 0 },
         [DbEvent.connect freshConn, DbEvent.stmt freshConn "BEGIN"])
  | CpAction.list =>
    if st.checkpointMode then
      if st.checkpointHistory.isEmpty then (Except.ok CpOut.noCheckpoints, st, [])
      else (Except.ok (CpOut.listing st.checkpointHistory), st, [])
    else (Except.ok CpOut.noSession, st, [])
  | CpAction.rollback =>
    match st.checkpointMode, st.sessionClient with
    | true, some c =>
      if isFalsyId checkpointId then
        (Except.error QError.checkpointIdRequired, st, [])
      else
        let k := checkpointId.getD 0
        match st.checkpointHistory.find? (fun cp => cp.id = k) with
        | none => (Except.error (QError.checkpointNotFound k), st, [])
        | some cp =>
          let sp := "ROLLBACK TO SAVEPOINT " ++ savepointName k
          match db sp with
          | Except.error e =>
            (Except.error (QError.dbError e), st, [DbEvent.stmt c sp])
          | Except.ok _ =>
            (Except.ok (CpOut.rolledBack k cp.query),
             { st with
                checkpointHistory :=
                  st.checkpointHistory.filter (fun x => x.id ≤ k) },
             [DbEvent.stmt c sp])
    | _, _ => (Except.error QError.noActiveSession, st, [])
  | CpAction.commit =>
    match st.checkpointMode, st.sessionClient with
    | true, some c =>
      match db "COMMIT" with
      | Except.error e =>
        (Except.error (QError.dbError e), st, [DbEvent.stmt c "COMMIT"])
      | Except.ok _ =>
        (Except.ok (CpOut.committed st.checkpointHistory.length),
         { checkpointMode := false
           sessionClient := none
           checkpointHistory := []
           checkpointCounter := 0 },
         [DbEvent.stmt c "COMMIT", DbEvent.release c])
    | _, _ => (Except.error QError.noActiveSession, st, [])
  | CpAction.discard =>
    match st.checkpointMode, st.sessionClient with
    | true, some c =>
      match db "ROLLBACK" with
      | Except.error e =>
        (Except.error (QError.dbError e), st, [DbEvent.stmt c "ROLLBACK"])
      | Except.ok _ =>
        (Except.ok (CpOut.discarded st.checkpointHistory.length),
         { checkpointMode := false
           sessionClient := none
           checkpointHistory := []
           checkpointCounter := 0 },
         [DbEvent.stmt c "ROLLBACK", DbEvent.release c])
    | _, _ => (Except.error QError.noActiveSession, st, [])

/-- One externally invocable operation of the gateway. -/
inductive Op
  | runQuery (sql : String)
  | cp (action : CpAction) (checkpointId : Option Int)

/-- The session state after one operation, under a role, a database
oracle, a fresh connection id, and a timestamp. -/
def stepOp (role : Role) (db : Db) (conn : Nat) (now : String)
    (st : SessionState) (op : Op) : SessionState :=
  match op with
  | Op.runQuery sql => (executeQuery role db conn now st sql).2.1
  | Op.cp action k => (checkpointTool db conn st action k).2.1

/-- Session states reachable from initialization by any sequence of
operations under arbitrary oracles, roles, connections and times. -/
inductive Reachable : SessionState → Prop
  | init : Reachable initialState
  | step (role : Role) (db : Db) (conn : Nat) (now : String) (op : Op)
      {st : SessionState} :
      Reachable st → Reachable (stepOp role db conn now st op)

/-- A database oracle on which every statement succeeds with no rows. -/
def dbAllOk : Db := fun _ => Except.ok ⟨[], some 0⟩

/-- The classifier as the specification words it: the first
whitespace- or semicolon-delimited token of the trimmed, upper-cased
SQL text (the run of non-delimiter characters at the front), remapped
through the two special cases. -/
def specClassify (sql : String) : String :=
  let token :=
    String.mk
      (((jsTrimList sql.toList).map Char.toUpper).takeWhile (fun c => !(isDelim c)))
  if readCommands.contains token then "SELECT"
  else if token = "RENAME" then "ALTER"
  else token

theorem splitFields_ne_nil (l : List Char) : splitFields l ≠ [] := by
  cases l with
  | nil => simp [splitFields]
  | cons c cs =>
    simp only [splitFields]
    split
    · simp
    · cases h : splitFields cs <;> simp

theorem splitFields_headD (l : List Char) :
    (splitFields l).headD [] = l.takeWhile (fun c => !(isDelim c)) := by
  induction l with
  | nil => rfl
  | cons c cs ih =>
    by_cases h : isDelim c
    · simp [splitFields, h, List.takeWhile_cons]
    · cases hs : splitFields cs with
      | nil => exact absurd hs (splitFields_ne_nil cs)
      | cons f fs =>
        rw [hs] at ih
        simp only [List.headD_cons] at ih
        simp [splitFields, h, hs, List.takeWhile_cons, ih]

/-- C2: the required privilege computed by the gate is exactly the
first whitespace- or semicolon-delimited token of the trimmed,
upper-cased SQL text, remapped so SELECT, WITH, SHOW and EXPLAIN
require SELECT and RENAME requires ALTER, with every other leading
token required literally; being a total function of the text alone it
is deterministic and pure, with no error case. -/
theorem classifier_matches_spec (sql : String) :
    requiredPrivilegeOf sql = specClassify sql := by
  unfold requiredPrivilegeOf specClassify commandOf
  rw [splitFields_headD]

/-- C1: when the required privilege of a SQL text is not among the
configured role's grants, the query tool fails with a permission
denied error naming the command, the required privilege and the
grants, the session state is untouched, and no database event occurs:
no connection is acquired and no statement is sent. -/
theorem query_denied_before_db (role : Role) (sql : String) (st : SessionState)
    (db : Db) (conn : Nat) (now : String)
    (h : (databaseRoles role).contains (requiredPrivilegeOf sql) = false) :
    executeQuery role db conn now st sql =
      (Except.error
        (QError.permissionDenied (commandOf sql) (requiredPrivilegeOf sql)
          (databaseRoles role)),
       st, []) := by
  unfold executeQuery checkPermissions
  rw [h]
  simp

theorem query_denied_before_db_witness :
    (databaseRoles Role.read).contains (requiredPrivilegeOf "DELETE FROM t") = false ∧
    executeQuery Role.read dbAllOk 1 "t0" initialState "DELETE FROM t" =
      (Except.error
        (QError.permissionDenied (commandOf "DELETE FROM t")
          (requiredPrivilegeOf "DELETE FROM t") (databaseRoles Role.read)),
       initialState, []) :=
  ⟨by decide,
   query_denied_before_db Role.read "DELETE FROM t" initialState dbAllOk 1 "t0"
     (by decide)⟩

/-- C6: invoking start while a session is already Active is a no-op:
the result is only the informational already-active response, the
state (counter and history included) is returned unchanged, and no
database event occurs — no second connection, no BEGIN. -/
theorem start_idempotent_when_active (st : SessionState) (db : Db) (conn : Nat)
    (cid : Option Int) (hm : st.checkpointMode = true) :
    checkpointTool db conn st CpAction.start cid =
      (Except.ok CpOut.alreadyActive, st, []) := by
  simp [checkpointTool, hm]

theorem start_idempotent_when_active_witness :
    (⟨true, some 1, [⟨1, "q", "t"⟩], 1⟩ : SessionState).checkpointMode = true ∧
    checkpointTool dbAllOk 2 ⟨true, some 1, [⟨1, "q", "t"⟩], 1⟩ CpAction.start none =
      (Except.ok CpOut.alreadyActive, ⟨true, some 1, [⟨1, "q", "t"⟩], 1⟩, []) :=
  ⟨rfl, start_idempotent_when_active _ dbAllOk 2 none rfl⟩

/-- C8 counterexample: in the Idle state the list action returns a
successful informational no-session response, not a failure, so the
claim that every non-start checkpoint operation fails while Idle is
false at the list action. -/
theorem idle_list_returns_success :
    (checkpointTool dbAllOk 1 initialState CpAction.list none).1 =
      Except.ok CpOut.noSession := rfl

/-- C8 amended: while the session is Idle, rollback, commit and
discard each fail with the no-active-session error and change
nothing, while list returns a successful informational no-session
response. -/
theorem idle_checkpoint_ops (st : SessionState) (db : Db) (conn : Nat)
    (cid : Option Int) (hm : st.checkpointMode = false) :
    checkpointTool db conn st CpAction.list none =
      (Except.ok CpOut.noSession, st, []) ∧
    checkpointTool db conn st CpAction.rollback cid =
      (Except.error QError.noActiveSession, st, []) ∧
    checkpointTool db conn st CpAction.commit none =
      (Except.error QError.noActiveSession, st, []) ∧
    checkpointTool db conn st CpAction.discard none =
      (Except.error QError.noActiveSession, st, []) := by
  obtain ⟨mode, client, hist, ctr⟩ := st
  subst hm
  refine ⟨?_, ?_, ?_, ?_⟩ <;> simp [checkpointTool]

theorem idle_checkpoint_ops_witness :
    initialState.checkpointMode = false ∧
    checkpointTool dbAllOk 1 initialState CpAction.rollback (some 1) =
      (Except.error QError.noActiveSession, initialState, []) ∧
    checkpointTool dbAllOk 1 initialState CpAction.commit none =
      (Except.error QError.noActiveSession, initialState, []) ∧
    checkpointTool dbAllOk 1 initialState CpAction.discard none =
      (Except.error QError.noActiveSession, initialState, []) :=
  ⟨rfl, (idle_checkpoint_ops initialState dbAllOk 1 (some 1) rfl).2.1,
   (idle_checkpoint_ops initialState dbAllOk 1 (some 1) rfl).2.2.1,
   (idle_checkpoint_ops initialState dbAllOk 1 (some 1) rfl).2.2.2⟩

/-- C9: in an Active session, a rollback whose checkpointId is absent
or equal to zero fails with the checkpointId-required error and
changes no state, and the checkpoint-not-found error is reachable
only for a present, non-zero id that is absent from the history. -/
theorem rollback_zero_or_missing_id (st : SessionState) (c : Nat) (db : Db)
    (conn : Nat) (hm : st.checkpointMode = true) (hc : st.sessionClient = some c) :
    checkpointTool db conn st CpAction.rollback none =
      (Except.error QError.checkpointIdRequired, st, []) ∧
    checkpointTool db conn st CpAction.rollback (some 0) =
      (Except.error QError.checkpointIdRequired, st, []) ∧
    (∀ (cid : Option Int) (k : Int),
      (checkpointTool db conn st CpAction.rollback cid).1 =
        Except.error (QError.checkpointNotFound k) →
      cid = some k ∧ k ≠ 0 ∧
      st.checkpointHistory.find? (fun cp => cp.id = k) = none) := by
  obtain ⟨mode, client, hist, ctr⟩ := st
  subst hm
  subst hc
  refine ⟨by simp [checkpointTool, isFalsyId], by simp [checkpointTool, isFalsyId], ?_⟩
  intro cid k h
  cases cid with
  | none => simp [checkpointTool, isFalsyId] at h
  | some j =>
    by_cases hj : j = 0
    · subst hj
      simp [checkpointTool, isFalsyId] at h
    · simp only [checkpointTool, isFalsyId, decide_eq_true_eq, if_neg hj,
        decide_eq_false hj, Bool.false_eq_true, if_false, Option.getD_some] at h
      cases hf : hist.find? (fun cp => cp.id = j) with
      | none =>
        rw [hf] at h
        simp only [Except.error.injEq, QError.checkpointNotFound.injEq] at h
        subst h
        exact ⟨rfl, hj, hf⟩
      | some cp =>
        rw [hf] at h
        cases hq : db ("ROLLBACK TO SAVEPOINT " ++ savepointName j) <;>
          rw [hq] at h <;> simp at h

theorem rollback_zero_or_missing_id_witness :
    (⟨true, some 1, [⟨1, "q", "t"⟩], 1⟩ : SessionState).checkpointMode = true ∧
    checkpointTool dbAllOk 2 ⟨true, some 1, [⟨1, "q", "t"⟩], 1⟩
        CpAction.rollback none =
      (Except.error QError.checkpointIdRequired,
       ⟨true, some 1, [⟨1, "q", "t"⟩], 1⟩, []) ∧
    checkpointTool dbAllOk 2 ⟨true, some 1, [⟨1, "q", "t"⟩], 1⟩
        CpAction.rollback (some 0) =
      (Except.error QError.checkpointIdRequired,
       ⟨true, some 1, [⟨1, "q", "t"⟩], 1⟩, []) ∧
    (some (7 : Int) = some 7 ∧ (7 : Int) ≠ 0 ∧
      (⟨true, some 1, [⟨1, "q", "t"⟩],
        1⟩ : SessionState).checkpointHistory.find? (fun cp => cp.id = 7) = none) :=
  ⟨rfl,
   (rollback_zero_or_missing_id ⟨true, some 1, [⟨1, "q", "t"⟩], 1⟩ 1 dbAllOk 2
     rfl rfl).1,
   (rollback_zero_or_missing_id ⟨true, some 1, [⟨1, "q", "t"⟩], 1⟩ 1 dbAllOk 2
     rfl rfl).2.1,
   (rollback_zero_or_missing_id ⟨true, some 1, [⟨1, "q", "t"⟩], 1⟩ 1 dbAllOk 2
     rfl rfl).2.2 (some 7) 7 rfl⟩

/-- C10: commit and discard mutate no session state unless their
COMMIT or ROLLBACK statement succeeds: when it throws, the error
propagates, the session stays Active with history, counter and
dedicated connection intact, and the connection is not released. -/
theorem commit_discard_atomic_on_failure (st : SessionState) (c : Nat) (db : Db)
    (conn : Nat) (e e2 : String)
    (hm : st.checkpointMode = true) (hc : st.sessionClient = some c) :
    (db "COMMIT" = Except.error e →
      checkpointTool db conn st CpAction.commit none =
        (Except.error (QError.dbError e), st, [DbEvent.stmt c "COMMIT"])) ∧
    (db "ROLLBACK" = Except.error e2 →
      checkpointTool db conn st CpAction.discard none =
        (Except.error (QError.dbError e2), st, [DbEvent.stmt c "ROLLBACK"])) := by
  obtain ⟨mode, client, hist, ctr⟩ := st
  subst hm
  subst hc
  constructor <;> intro hdb <;> simp [checkpointTool, hdb]

/-- A database oracle on which every statement fails. -/
def dbAllFail : Db := fun _ => Except.error "db down"

theorem commit_discard_atomic_on_failure_witness :
    (⟨true, some 3, [⟨1, "q", "t"⟩], 1⟩ : SessionState).checkpointMode = true ∧
    dbAllFail "COMMIT" = Except.error "db down" ∧
    checkpointTool dbAllFail 7 ⟨true, some 3, [⟨1, "q", "t"⟩], 1⟩ CpAction.commit none =
      (Except.error (QError.dbError "db down"),
       ⟨true, some 3, [⟨1, "q", "t"⟩], 1⟩, [DbEvent.stmt 3 "COMMIT"]) ∧
    checkpointTool dbAllFail 7 ⟨true, some 3, [⟨1, "q", "t"⟩], 1⟩ CpAction.discard none =
      (Except.error (QError.dbError "db down"),
       ⟨true, some 3, [⟨1, "q", "t"⟩], 1⟩, [DbEvent.stmt 3 "ROLLBACK"]) :=
  ⟨rfl, rfl,
   (commit_discard_atomic_on_failure ⟨true, some 3, [⟨1, "q", "t"⟩], 1⟩ 3 dbAllFail 7 "db down" "db down" rfl rfl).1 rfl,
   (commit_discard_atomic_on_failure ⟨true, some 3, [⟨1, "q", "t"⟩], 1⟩ 3 dbAllFail 7 "db down" "db down" rfl rfl).2 rfl⟩

/-- C5: after a successful commit or discard from any Active session,
the state is exactly the Idle initial state — Idle flag, no dedicated
connection (it is released, as the release event shows), empty
history, counter zero — and a subsequent list reports that no session
is active. -/
theorem commit_discard_terminal (st : SessionState) (c : Nat) (db db2 : Db)
    (conn conn2 : Nat)
    (hm : st.checkpointMode = true) (hc : st.sessionClient = some c)
    (hcommit : (db "COMMIT").isOk = true)
    (hrollback : (db "ROLLBACK").isOk = true) :
    checkpointTool db conn st CpAction.commit none =
      (Except.ok (CpOut.committed st.checkpointHistory.length), initialState,
       [DbEvent.stmt c "COMMIT", DbEvent.release c]) ∧
    checkpointTool db conn st CpAction.discard none =
      (Except.ok (CpOut.discarded st.checkpointHistory.length), initialState,
       [DbEvent.stmt c "ROLLBACK", DbEvent.release c]) ∧
    checkpointTool db2 conn2 initialState CpAction.list none =
      (Except.ok CpOut.noSession, initialState, []) := by
  obtain ⟨mode, client, hist, ctr⟩ := st
  subst hm
  subst hc
  refine ⟨?_, ?_, by simp [checkpointTool, initialState]⟩
  · cases hq : db "COMMIT" with
    | error e => rw [hq] at hcommit; simp [Except.isOk, Except.toBool] at hcommit
    | ok r => simp [checkpointTool, hq, initialState]
  · cases hq : db "ROLLBACK" with
    | error e => rw [hq] at hrollback; simp [Except.isOk, Except.toBool] at hrollback
    | ok r => simp [checkpointTool, hq, initialState]

theorem commit_discard_terminal_witness :
    (⟨true, some 4, [⟨1, "q", "t"⟩], 1⟩ : SessionState).checkpointMode = true ∧
    (dbAllOk "COMMIT").isOk = true ∧
    checkpointTool dbAllOk 8 ⟨true, some 4, [⟨1, "q", "t"⟩], 1⟩ CpAction.commit none =
      (Except.ok (CpOut.committed 1), initialState,
       [DbEvent.stmt 4 "COMMIT", DbEvent.release 4]) ∧
    checkpointTool dbAllOk 8 ⟨true, some 4, [⟨1, "q", "t"⟩], 1⟩ CpAction.discard none =
      (Except.ok (CpOut.discarded 1), initialState,
       [DbEvent.stmt 4 "ROLLBACK", DbEvent.release 4]) ∧
    checkpointTool dbAllOk 9 initialState CpAction.list none =
      (Except.ok CpOut.noSession, initialState, []) :=
  ⟨rfl, rfl,
   (commit_discard_terminal ⟨true, some 4, [⟨1, "q", "t"⟩], 1⟩ 4 dbAllOk dbAllOk 8 9 rfl rfl rfl rfl).1,
   (commit_discard_terminal ⟨true, some 4, [⟨1, "q", "t"⟩], 1⟩ 4 dbAllOk dbAllOk 8 9 rfl rfl rfl rfl).2.1,
   (commit_discard_terminal ⟨true, some 4, [⟨1, "q", "t"⟩], 1⟩ 4 dbAllOk dbAllOk 8 9 rfl rfl rfl rfl).2.2⟩

/-- C4: in an Active session holding checkpoints 1 through 5,
rollback to 3 succeeds and leaves exactly the checkpoints with ids 1,
2 and 3 (counter untouched), and a subsequent rollback to 5 fails
with the checkpoint-not-found error, changing no state and leaving
the session Active. -/
theorem rollback_truncation_scenario (c conn : Nat) (ctr : Int)
    (q1 q2 q3 q4 q5 t1 t2 t3 t4 t5 : String) (db : Db)
    (hdb : (db "ROLLBACK TO SAVEPOINT checkpoint_3").isOk = true) :
    checkpointTool db conn
        ⟨true, some c,
         [⟨1, q1, t1⟩, ⟨2, q2, t2⟩, ⟨3, q3, t3⟩, ⟨4, q4, t4⟩, ⟨5, q5, t5⟩], ctr⟩
        CpAction.rollback (some 3) =
      (Except.ok (CpOut.rolledBack 3 q3),
       ⟨true, some c, [⟨1, q1, t1⟩, ⟨2, q2, t2⟩, ⟨3, q3, t3⟩], ctr⟩,
       [DbEvent.stmt c "ROLLBACK TO SAVEPOINT checkpoint_3"]) ∧
    checkpointTool db conn
        ⟨true, some c, [⟨1, q1, t1⟩, ⟨2, q2, t2⟩, ⟨3, q3, t3⟩], ctr⟩
        CpAction.rollback (some 5) =
      (Except.error (QError.checkpointNotFound 5),
       ⟨true, some c, [⟨1, q1, t1⟩, ⟨2, q2, t2⟩, ⟨3, q3, t3⟩], ctr⟩, []) := by
  have hsp : "ROLLBACK TO SAVEPOINT " ++ savepointName 3 =
      "ROLLBACK TO SAVEPOINT checkpoint_3" := rfl
  constructor
  · cases hq : db "ROLLBACK TO SAVEPOINT checkpoint_3" with
    | error e => rw [hq] at hdb; simp [Except.isOk, Except.toBool] at hdb
    | ok r =>
      simp [checkpointTool, isFalsyId, List.find?, List.filter, hsp, hq]
  · simp [checkpointTool, isFalsyId, List.find?]

theorem rollback_truncation_scenario_witness :
    (dbAllOk "ROLLBACK TO SAVEPOINT checkpoint_3").isOk = true ∧
    checkpointTool dbAllOk 1
        ⟨true, some 2,
         [⟨1, "w1", "s1"⟩, ⟨2, "w2", "s2"⟩, ⟨3, "w3", "s3"⟩, ⟨4, "w4", "s4"⟩,
          ⟨5, "w5", "s5"⟩], 5⟩
        CpAction.rollback (some 3) =
      (Except.ok (CpOut.rolledBack 3 "w3"),
       ⟨true, some 2, [⟨1, "w1", "s1"⟩, ⟨2, "w2", "s2"⟩, ⟨3, "w3", "s3"⟩], 5⟩,
       [DbEvent.stmt 2 "ROLLBACK TO SAVEPOINT checkpoint_3"]) ∧
    checkpointTool dbAllOk 1
        ⟨true, some 2, [⟨1, "w1", "s1"⟩, ⟨2, "w2", "s2"⟩, ⟨3, "w3", "s3"⟩], 5⟩
        CpAction.rollback (some 5) =
      (Except.error (QError.checkpointNotFound 5),
       ⟨true, some 2, [⟨1, "w1", "s1"⟩, ⟨2, "w2", "s2"⟩, ⟨3, "w3", "s3"⟩], 5⟩, []) :=
  ⟨rfl,
   (rollback_truncation_scenario 2 1 5 "w1" "w2" "w3" "w4" "w5" "s1" "s2" "s3" "s4"
     "s5" dbAllOk rfl).1,
   (rollback_truncation_scenario 2 1 5 "w1" "w2" "w3" "w4" "w5" "s1" "s2" "s3" "s4"
     "s5" dbAllOk rfl).2⟩

/-- C7: for a query run in Idle (non-checkpoint) mode that fails at
the database, the per-call transaction is rolled back before the
pooled connection is released, the original failure is re-raised
unchanged even when the rollback itself fails (which only adds a
warning), and the connection release is the final event on every exit
path, success or failure. -/
theorem idle_failure_rollback_and_release (role : Role) (st : SessionState)
    (db : Db) (conn : Nat) (now : String) (sql e : String)
    (hidle : st.checkpointMode = false)
    (hperm : (databaseRoles role).contains (requiredPrivilegeOf sql) = true)
    (hbegin :
      (db (if role = Role.read then "BEGIN TRANSACTION READ ONLY" else "BEGIN")).isOk =
        true)
    (hfail : db sql = Except.error e) :
    (executeQuery role db conn now st sql =
      (Except.error (QError.dbError e), st,
       ([DbEvent.connect conn,
         DbEvent.stmt conn
           (if role = Role.read then "BEGIN TRANSACTION READ ONLY" else "BEGIN"),
         DbEvent.stmt conn sql] ++
        (match db "ROLLBACK" with
         | Except.error _ => [DbEvent.stmt conn "ROLLBACK", DbEvent.warn]
         | Except.ok _ => [DbEvent.stmt conn "ROLLBACK"])) ++
       [DbEvent.release conn])) ∧
    (∀ db2 : Db, ((executeQuery role db2 conn now st sql).2.2).getLast? =
      some (DbEvent.release conn)) := by
  obtain ⟨mode, client, hist, ctr⟩ := st
  subst hidle
  have hmem : requiredPrivilegeOf sql ∈ databaseRoles role := by simpa using hperm
  constructor
  · cases hb : db (if role = Role.read then "BEGIN TRANSACTION READ ONLY" else "BEGIN") with
    | error eb => rw [hb] at hbegin; simp [Except.isOk, Except.toBool] at hbegin
    | ok rb =>
      cases client <;>
        cases hr : db "ROLLBACK" <;>
          simp [executeQuery, checkPermissions, hmem, idleExec, idleTry, idleCatch,
            hb, hfail, hr]
  · intro db2
    cases client <;>
      simp [executeQuery, checkPermissions, hmem, idleExec]

/-- An oracle failing the update statement and the rollback. -/
def dbUpdateBoom : Db := fun s =>
  if s = "UPDATE t SET x = 1" then Except.error "boom"
  else if s = "ROLLBACK" then Except.error "rbfail"
  else Except.ok ⟨[], some 0⟩

theorem idle_failure_rollback_and_release_witness :
    initialState.checkpointMode = false ∧
    (databaseRoles Role.admin).contains (requiredPrivilegeOf "UPDATE t SET x = 1") =
      true ∧
    (dbUpdateBoom
        (if Role.admin = Role.read then "BEGIN TRANSACTION READ ONLY" else "BEGIN")).isOk =
      true ∧
    dbUpdateBoom "UPDATE t SET x = 1" = Except.error "boom" ∧
    (executeQuery Role.admin dbUpdateBoom 5 "t0" initialState "UPDATE t SET x = 1" =
      (Except.error (QError.dbError "boom"), initialState,
       ([DbEvent.connect 5,
         DbEvent.stmt 5
           (if Role.admin = Role.read then "BEGIN TRANSACTION READ ONLY" else "BEGIN"),
         DbEvent.stmt 5 "UPDATE t SET x = 1"] ++
        (match dbUpdateBoom "ROLLBACK" with
         | Except.error _ => [DbEvent.stmt 5 "ROLLBACK", DbEvent.warn]
         | Except.ok _ => [DbEvent.stmt 5 "ROLLBACK"])) ++
       [DbEvent.release 5])) ∧
    ((executeQuery Role.admin dbAllOk 5 "t0" initialState "UPDATE t SET x = 1").2.2).getLast? =
      some (DbEvent.release 5) :=
  ⟨rfl, by decide, by decide, rfl,
   (idle_failure_rollback_and_release Role.admin initialState dbUpdateBoom 5 "t0"
     "UPDATE t SET x = 1" "boom" rfl (by decide) (by decide) rfl).1,
   (idle_failure_rollback_and_release Role.admin initialState dbUpdateBoom 5 "t0"
     "UPDATE t SET x = 1" "boom" rfl (by decide) (by decide) rfl).2 dbAllOk⟩

/-- The history-length bound maintained by every operation: while
Active, the history never outgrows the counter. -/
def lenInv (s : SessionState) : Prop :=
  s.checkpointMode = true →
    (s.checkpointHistory.length : Int) ≤ s.checkpointCounter

theorem lenInv_step (role : Role) (db : Db) (conn : Nat) (now : String)
    (st : SessionState) (op : Op) (h : lenInv st) :
    lenInv (stepOp role db conn now st op) := by
  obtain ⟨mode, client, hist, ctr⟩ := st
  cases op with
  | runQuery sql =>
    cases hp : checkPermissions sql (databaseRoles role) with
    | error e => simpa [stepOp, executeQuery, hp] using h
    | ok u =>
      cases mode with
      | false => cases client <;> simpa [stepOp, executeQuery, hp] using h
      | true =>
        cases client with
        | none => simpa [stepOp, executeQuery, hp] using h
        | some c =>
          cases hq : db sql with
          | error e2 => simpa [stepOp, executeQuery, hp, hq] using h
          | ok res =>
            by_cases hw : commandOf sql ∈ writeCommands
            · have hh : (hist.length : Int) ≤ ctr := h rfl
              cases hs : db ("SAVEPOINT " ++ savepointName (ctr + 1)) with
              | error e2 =>
                have hstep : stepOp role db conn now ⟨true, some c, hist, ctr⟩
                    (Op.runQuery sql) = ⟨true, some c, hist, ctr + 1⟩ := by
                  simp [stepOp, executeQuery, hp, hq, hw, hs]
                rw [hstep]
                intro _
                show (hist.length : Int) ≤ ctr + 1
                omega
              | ok r2 =>
                have hstep : stepOp role db conn now ⟨true, some c, hist, ctr⟩
                    (Op.runQuery sql) =
                    ⟨true, some c, hist ++ [⟨ctr + 1, sql, now⟩], ctr + 1⟩ := by
                  simp [stepOp, executeQuery, hp, hq, hw, hs]
                rw [hstep]
                intro _
                show ((hist ++ [(⟨ctr + 1, sql, now⟩ : Checkpoint)]).length : Int) ≤ ctr + 1
                simp only [List.length_append, List.length_singleton]
                push_cast
                omega
            · have hstep : stepOp role db conn now ⟨true, some c, hist, ctr⟩
                  (Op.runQuery sql) = ⟨true, some c, hist, ctr⟩ := by
                simp [stepOp, executeQuery, hp, hq, hw]
              rw [hstep]
              exact h
  | cp action k =>
    cases action with
    | start =>
      cases mode with
      | true => simpa [stepOp, checkpointTool] using h
      | false =>
        cases hb : db "BEGIN" with
        | error e => intro hm; simp [stepOp, checkpointTool, hb] at hm
        | ok r => intro _; simp [stepOp, checkpointTool, hb]
    | list =>
      cases mode with
      | false => simpa [stepOp, checkpointTool] using h
      | true =>
        cases he : hist.isEmpty <;> simpa [stepOp, checkpointTool, he] using h
    | rollback =>
      cases mode with
      | false => cases client <;> simpa [stepOp, checkpointTool] using h
      | true =>
        cases client with
        | none => simpa [stepOp, checkpointTool] using h
        | some c =>
          cases hf : isFalsyId k with
          | true => simpa [stepOp, checkpointTool, hf] using h
          | false =>
            cases hfind : hist.find? (fun cp => cp.id = k.getD 0) with
            | none => simpa [stepOp, checkpointTool, hf, hfind] using h
            | some cp =>
              cases hq : db ("ROLLBACK TO SAVEPOINT " ++ savepointName (k.getD 0)) with
              | error e => simpa [stepOp, checkpointTool, hf, hfind, hq] using h
              | ok r =>
                have hh : (hist.length : Int) ≤ ctr := h rfl
                have hstep : stepOp role db conn now ⟨true, some c, hist, ctr⟩
                    (Op.cp CpAction.rollback k) =
                    ⟨true, some c, hist.filter (fun x => x.id ≤ k.getD 0), ctr⟩ := by
                  simp [stepOp, checkpointTool, hf, hfind, hq]
                rw [hstep]
                intro _
                show ((hist.filter (fun x => x.id ≤ k.getD 0)).length : Int) ≤ ctr
                have hfl := List.length_filter_le (fun x => x.id ≤ k.getD 0) hist
                omega
    | commit =>
      cases mode with
      | false => cases client <;> simpa [stepOp, checkpointTool] using h
      | true =>
        cases client with
        | none => simpa [stepOp, checkpointTool] using h
        | some c =>
          cases hq : db "COMMIT" with
          | error e => simpa [stepOp, checkpointTool, hq] using h
          | ok r => intro hm; simp [stepOp, checkpointTool, hq] at hm
    | discard =>
      cases mode with
      | false => cases client <;> simpa [stepOp, checkpointTool] using h
      | true =>
        cases client with
        | none => simpa [stepOp, checkpointTool] using h
        | some c =>
          cases hq : db "ROLLBACK" with
          | error e => simpa [stepOp, checkpointTool, hq] using h
          | ok r => intro hm; simp [stepOp, checkpointTool, hq] at hm

/-- C3 counterexample: a reachable Active state (start, two
checkpointed writes, rollback to checkpoint 1) whose history length
is 1 while the checkpoint counter is 2, refuting the claimed equality
of the two. -/
theorem history_length_ne_counter_reachable :
    Reachable ⟨true, some 1, [⟨1, "INSERT INTO t VALUES (1)", "t1"⟩], 2⟩ ∧
    (⟨true, some 1, [⟨1, "INSERT INTO t VALUES (1)", "t1"⟩],
        2⟩ : SessionState).checkpointMode = true ∧
    ¬ (((⟨true, some 1, [⟨1, "INSERT INTO t VALUES (1)", "t1"⟩],
          2⟩ : SessionState).checkpointHistory.length : Int) =
        (⟨true, some 1, [⟨1, "INSERT INTO t VALUES (1)", "t1"⟩],
          2⟩ : SessionState).checkpointCounter) := by
  refine ⟨?_, rfl, by decide⟩
  have h0 : Reachable initialState := Reachable.init
  have h1 := Reachable.step Role.admin dbAllOk 1 "t0" (Op.cp CpAction.start none) h0
  have e1 : stepOp Role.admin dbAllOk 1 "t0" initialState (Op.cp CpAction.start none) =
      ⟨true, some 1, [], 0⟩ := by decide
  rw [e1] at h1
  have h2 := Reachable.step Role.admin dbAllOk 1 "t1"
    (Op.runQuery "INSERT INTO t VALUES (1)") h1
  have e2 : stepOp Role.admin dbAllOk 1 "t1" ⟨true, some 1, [], 0⟩
      (Op.runQuery "INSERT INTO t VALUES (1)") =
      ⟨true, some 1, [⟨1, "INSERT INTO t VALUES (1)", "t1"⟩], 1⟩ := by decide
  rw [e2] at h2
  have h3 := Reachable.step Role.admin dbAllOk 1 "t2"
    (Op.runQuery "INSERT INTO t VALUES (2)") h2
  have e3 : stepOp Role.admin dbAllOk 1 "t2"
      ⟨true, some 1, [⟨1, "INSERT INTO t VALUES (1)", "t1"⟩], 1⟩
      (Op.runQuery "INSERT INTO t VALUES (2)") =
      ⟨true, some 1,
       [⟨1, "INSERT INTO t VALUES (1)", "t1"⟩,
        ⟨2, "INSERT INTO t VALUES (2)", "t2"⟩], 2⟩ := by decide
  rw [e3] at h3
  have h4 := Reachable.step Role.admin dbAllOk 1 "t3"
    (Op.cp CpAction.rollback (some 1)) h3
  have e4 : stepOp Role.admin dbAllOk 1 "t3"
      ⟨true, some 1,
       [⟨1, "INSERT INTO t VALUES (1)", "t1"⟩,
        ⟨2, "INSERT INTO t VALUES (2)", "t2"⟩], 2⟩
      (Op.cp CpAction.rollback (some 1)) =
      ⟨true, some 1, [⟨1, "INSERT INTO t VALUES (1)", "t1"⟩], 2⟩ := by decide
  rw [e4] at h4
  exact h4

/-- C3 amended: in every reachable Active state the history length is
at most the counter (equality can fail after a rollback, which
shrinks the history but leaves the counter alone), and rollback to an
id present in the history truncates the history to the entries with
id at most that id while resetting nothing else — mode, client and
counter are untouched. -/
theorem history_bound_and_rollback_truncates :
    (∀ s : SessionState, Reachable s → s.checkpointMode = true →
      (s.checkpointHistory.length : Int) ≤ s.checkpointCounter) ∧
    (∀ (st : SessionState) (c : Nat) (k : Int) (cp : Checkpoint) (db : Db)
      (conn : Nat),
      st.checkpointMode = true → st.sessionClient = some c → k ≠ 0 →
      st.checkpointHistory.find? (fun x => x.id = k) = some cp →
      (db ("ROLLBACK TO SAVEPOINT " ++ savepointName k)).isOk = true →
      checkpointTool db conn st CpAction.rollback (some k) =
        (Except.ok (CpOut.rolledBack k cp.query),
         { st with
            checkpointHistory := st.checkpointHistory.filter (fun x => x.id ≤ k) },
         [DbEvent.stmt c ("ROLLBACK TO SAVEPOINT " ++ savepointName k)])) := by
  constructor
  · intro s hs
    induction hs with
    | init => intro hm; simp [initialState] at hm
    | step role db conn now op hst ih =>
      exact lenInv_step role db conn now _ op ih
  · intro st c k cp db conn hm hc hk hfind hdb
    obtain ⟨mode, client, hist, ctr⟩ := st
    subst hm
    subst hc
    cases hq : db ("ROLLBACK TO SAVEPOINT " ++ savepointName k) with
    | error e => rw [hq] at hdb; simp [Except.isOk, Except.toBool] at hdb
    | ok r =>
      simp only [SessionState.checkpointHistory] at hfind
      simp [checkpointTool, isFalsyId, hk, hfind, hq]

theorem history_bound_and_rollback_truncates_witness :
    (((⟨true, some 1, [], 0⟩ : SessionState).checkpointHistory.length : Int) ≤
      (⟨true, some 1, [], 0⟩ : SessionState).checkpointCounter) ∧
    checkpointTool dbAllOk 6 ⟨true, some 2, [⟨1, "w1", "s1"⟩, ⟨2, "w2", "s2"⟩], 2⟩
        CpAction.rollback (some 1) =
      (Except.ok (CpOut.rolledBack 1 "w1"),
       { (⟨true, some 2, [⟨1, "w1", "s1"⟩, ⟨2, "w2", "s2"⟩], 2⟩ : SessionState) with
          checkpointHistory :=
            ([⟨1, "w1", "s1"⟩, ⟨2, "w2", "s2"⟩] : List Checkpoint).filter
              (fun x => x.id ≤ 1) },
       [DbEvent.stmt 2 ("ROLLBACK TO SAVEPOINT " ++ savepointName 1)]) := by
  constructor
  · apply history_bound_and_rollback_truncates.1
    · have h1 := Reachable.step Role.admin dbAllOk 1 "t0" (Op.cp CpAction.start none)
        Reachable.init
      have e1 : stepOp Role.admin dbAllOk 1 "t0" initialState
          (Op.cp CpAction.start none) = ⟨true, some 1, [], 0⟩ := by decide
      rw [e1] at h1
      exact h1
    · rfl
  · exact history_bound_and_rollback_truncates.2
      ⟨true, some 2, [⟨1, "w1", "s1"⟩, ⟨2, "w2", "s2"⟩], 2⟩ 2 1 ⟨1, "w1", "s1"⟩
      dbAllOk 6 rfl rfl (by decide) (by decide) rfl

end PgGateway
